import Mathlib

/-
Verification of the Lincoln historical-records data-cleaning core.

This file shallowly embeds the cleaning and schema-reconciliation functions of
the repository (src/data_importer.py, src/src/data_processor.py,
src/src/file_processor.py, src/src/lincoln_importer.py) as executable Lean
definitions and proves or refutes the frozen claims about them.

Conventions of the embedding:
- Python scalars (None / NaN / int / float / str) are the type PyScalar; floats
  are modelled as decimal values (sign, integer part, fraction digits) plus the
  special values nan / inf / -inf, which is enough to reflect the is_integer,
  isna and str() behaviour the cleaning code relies on.
- Python str operations (strip, lower, substring containment, the specific
  regular expressions the source uses) are modelled character-exactly on
  List Char; the ASCII fragment suffices for every claim.
- pandas.to_datetime with coercion is an external library call whose behaviour
  is not part of this repository; it is abstracted as an oracle parameter
  pdParse : String -> PdResult which may coerce to NaT, yield a timestamp, or
  raise. Every theorem quantifies over the oracle or fixes a concrete one.
- Exception handling around per-row processing is modelled with Except; the
  per-row body (an SQL INSERT or a record assembly) is abstracted as a
  fallible function parameter, mirroring the try/except structure of the
  source loops.
-/

set_option maxHeartbeats 4000000
set_option maxRecDepth 8000

/-! ### Models of Python string primitives -/

/-- Whitespace characters recognised by Python str.strip and the regex class \s
(ASCII fragment). -/
def isPySpace (c : Char) : Bool :=
  c == ' ' || c == '\t' || c == '\n' || c == '\r' || c == '\x0b' || c == '\x0c'

/-- Python str.lower, character-wise (ASCII fragment). -/
def lowerChar (c : Char) : Char := c.toLower

/-- Python str.lower on a whole string. -/
def pyLower (s : String) : String := String.mk (s.data.map lowerChar)

/-- Remove trailing whitespace from a character list. -/
def dropTrailing (l : List Char) : List Char := (l.reverse.dropWhile isPySpace).reverse

/-- Python str.strip on a character list. -/
def stripList (l : List Char) : List Char := dropTrailing (l.dropWhile isPySpace)

/-- Python str.strip. -/
def pyStrip (s : String) : String := String.mk (stripList s.data)

/-- Character-list prefix test. -/
def listPrefixOf : List Char → List Char → Bool
  | [], _ => true
  | _ :: _, [] => false
  | a :: as, b :: bs => a == b && listPrefixOf as bs

/-- Character-list contiguous-substring test. -/
def listInfixOf (n : List Char) : List Char → Bool
  | [] => n.isEmpty
  | c :: cs => listPrefixOf n (c :: cs) || listInfixOf n cs

/-- Python substring containment: needle in hay. -/
def pyIn (needle hay : String) : Bool := listInfixOf needle.data hay.data

/-- Numeric value of a decimal digit character. -/
def digitVal (c : Char) : Nat := c.toNat - 48

/-- Value of a list of decimal digit characters. -/
def digitsToNat (l : List Char) : Nat := l.foldl (fun a c => a * 10 + digitVal c) 0

/-- Value of the regex \d\x7b4\x7d match starting exactly here, if any. -/
def fourDigitAt : List Char → Option Nat
  | a :: b :: c :: d :: _ =>
    if a.isDigit && b.isDigit && c.isDigit && d.isDigit then
      some (digitVal a * 1000 + digitVal b * 100 + digitVal c * 10 + digitVal d)
    else none
  | _ => none

/-- Python re.search for four consecutive digits: value of the first match. -/
def findFour : List Char → Option Nat
  | [] => none
  | c :: cs =>
    match fourDigitAt (c :: cs) with
    | some n => some n
    | none => findFour cs

/-- Match of the pattern age-then-whitespace-then-digits starting exactly here. -/
def ageNumAt : List Char → Option Nat
  | 'a' :: 'g' :: 'e' :: rest =>
    let ds := (rest.dropWhile isPySpace).takeWhile Char.isDigit
    if ds.isEmpty then none else some (digitsToNat ds)
  | _ => none

/-- Python re.search for the age pattern: the captured number of the first match. -/
def findAgeNum : List Char → Option Nat
  | [] => none
  | c :: cs =>
    match ageNumAt (c :: cs) with
    | some n => some n
    | none => findAgeNum cs

/-- Prefix match of the regex of four digits, dash, two digits, dash, two
digits (re.match on the full-date pattern). -/
def matchFullDateStart : List Char → Bool
  | a :: b :: c :: d :: '-' :: e :: f :: '-' :: g :: h :: _ =>
    a.isDigit && b.isDigit && c.isDigit && d.isDigit &&
    e.isDigit && f.isDigit && g.isDigit && h.isDigit
  | _ => false

/-- Anchored match of the regex of four digits with an optional trailing
dot-zero, then end of string (re.match on the bare-year pattern). -/
def matchBareYear : List Char → Bool
  | a :: b :: c :: d :: rest =>
    a.isDigit && b.isDigit && c.isDigit && d.isDigit &&
    (rest.isEmpty || rest == ['.', '0'])
  | _ => false

/-- Prefix match of the regex of four digits, dash, four digits (re.match on
the year-range pattern of clean_date). -/
def matchRangeYY : List Char → Bool
  | a :: b :: c :: d :: '-' :: e :: f :: g :: h :: _ =>
    a.isDigit && b.isDigit && c.isDigit && d.isDigit &&
    e.isDigit && f.isDigit && g.isDigit && h.isDigit
  | _ => false

/-- Python int() applied to a string of digits with optional surrounding
whitespace; digit-group underscores are not modelled (no claim involves them). -/
def parsePyIntDigits (s : String) : Option Nat :=
  let t := stripList s.data
  if t.isEmpty then none
  else if t.all Char.isDigit then some (digitsToNat t) else none

/-- Characters before the first occurrence of a separator substring; with the
separator present this is Python split(sep)[0]. -/
def takeBeforeSubstr (sep : String) : List Char → List Char
  | [] => []
  | c :: cs => if listPrefixOf sep.data (c :: cs) then [] else c :: takeBeforeSubstr sep cs

/-! ### Word-boundary substitution (re.sub of a qualifier token) -/

/-- Word character for the regex boundary \b (ASCII fragment of \w). -/
def wordCharB (c : Char) : Bool := c.isAlphanum || c == '_'

/-- Word-ness of an optional character; outside the string counts as non-word. -/
def boundSide : Option Char → Bool
  | some c => wordCharB c
  | none => false

/-- Regex word boundary between two adjacent positions. -/
def isBoundaryB (a b : Option Char) : Bool := boundSide a != boundSide b

/-- Case-insensitive match of a literal pattern (with the dot as wildcard, as
in the source pattern built from the qualifier c.) at the head of the input. -/
def patCheck : List Char → List Char → Bool
  | [], _ => true
  | _ :: _, [] => false
  | q :: qs, c :: cs => (if q == '.' then c != '\n' else lowerChar c == q) && patCheck qs cs

/-- Scan of re.sub with pattern \b..\b replacing matches by the empty string;
prev is the previous original character (for boundary tests). The fuel
argument (initially the input length, every step consumes at least one input
character) keeps the recursion structural. -/
def subScan (p0 : Char) (ps : List Char) : Nat → Option Char → List Char → List Char
  | 0, _, _ => []
  | _ + 1, _, [] => []
  | fuel + 1, prev, c :: cs =>
    if isBoundaryB prev (some c) && patCheck (p0 :: ps) (c :: cs) then
      let lastC := (c :: cs).get? ps.length
      let rest := cs.drop ps.length
      if isBoundaryB lastC rest.head? then subScan p0 ps fuel lastC rest
      else c :: subScan p0 ps fuel (some c) cs
    else c :: subScan p0 ps fuel (some c) cs

/-- Python re.sub of the word-bounded qualifier q (lowercase literal, dot as
wildcard) by the empty string, case-insensitively. -/
def regexSubWB (q : String) (s : String) : String :=
  match q.data with
  | [] => s
  | p0 :: ps => String.mk (subScan p0 ps s.data.length none s.data)

/-! ### Dates and the strptime model -/

/-- A calendar date as datetime.datetime carries it (time components unused). -/
structure PyDate where
  year : Nat
  month : Nat
  day : Nat
deriving DecidableEq, Repr

/-- Gregorian leap-year rule used by datetime. -/
def isLeapYear (y : Nat) : Bool := y % 4 == 0 && (y % 100 != 0 || y % 400 == 0)

/-- Number of days of a month, as datetime validates them. -/
def daysInMonth (y m : Nat) : Nat :=
  if m == 2 then (if isLeapYear y then 29 else 28)
  else if m == 4 || m == 6 || m == 9 || m == 11 then 30 else 31

/-- Construction of datetime(y, m, d): validates the day and rejects year 0. -/
def mkValidDate (y m d : Nat) : Option PyDate :=
  if 1 ≤ y && 1 ≤ d && d ≤ daysInMonth y m then some ⟨y, m, d⟩ else none

/-- strptime directive %Y: exactly four digits. -/
def take4Y : List Char → Option (Nat × List Char)
  | a :: b :: c :: d :: rest =>
    if a.isDigit && b.isDigit && c.isDigit && d.isDigit then
      some (digitVal a * 1000 + digitVal b * 100 + digitVal c * 10 + digitVal d, rest)
    else none
  | _ => none

/-- strptime directive %m, with the alternation order of the CPython pattern. -/
def takeMonthTok : List Char → Option (Nat × List Char)
  | '1' :: c :: rest =>
    if '0' ≤ c && c ≤ '2' then some (10 + digitVal c, rest) else some (1, c :: rest)
  | '0' :: c :: rest => if '1' ≤ c && c ≤ '9' then some (digitVal c, rest) else none
  | c :: rest => if '1' ≤ c && c ≤ '9' then some (digitVal c, rest) else none
  | [] => none

/-- strptime directive %d, with the alternation order of the CPython pattern. -/
def takeDayTok : List Char → Option (Nat × List Char)
  | '3' :: c :: rest => if c == '0' || c == '1' then some (30 + digitVal c, rest) else some (3, c :: rest)
  | c1 :: c2 :: rest =>
    if (c1 == '1' || c1 == '2') && c2.isDigit then some (digitVal c1 * 10 + digitVal c2, rest)
    else if c1 == '0' && ('1' ≤ c2 && c2 ≤ '9') then some (digitVal c2, rest)
    else if '1' ≤ c1 && c1 ≤ '9' then some (digitVal c1, c2 :: rest)
    else none
  | c :: rest => if '1' ≤ c && c ≤ '9' then some (digitVal c, rest) else none
  | [] => none

/-- Literal separator character inside a strptime format. -/
def takeLit (ch : Char) : List Char → Option (List Char)
  | c :: rest => if c == ch then some rest else none
  | [] => none

/-- strptime for the shape %Y sep %m sep %d. -/
def parseYMD (sep : Char) (l : List Char) : Option PyDate := do
  let (y, r1) ← take4Y l
  let r2 ← takeLit sep r1
  let (m, r3) ← takeMonthTok r2
  let r4 ← takeLit sep r3
  let (d, r5) ← takeDayTok r4
  if r5.isEmpty then mkValidDate y m d else none

/-- strptime for the shape %m/%d/%Y. -/
def parseMDY (l : List Char) : Option PyDate := do
  let (m, r1) ← takeMonthTok l
  let r2 ← takeLit '/' r1
  let (d, r3) ← takeDayTok r2
  let r4 ← takeLit '/' r3
  let (y, r5) ← take4Y r4
  if r5.isEmpty then mkValidDate y m d else none

/-- strptime for the shape %d/%m/%Y. -/
def parseDMY (l : List Char) : Option PyDate := do
  let (d, r1) ← takeDayTok l
  let r2 ← takeLit '/' r1
  let (m, r3) ← takeMonthTok r2
  let r4 ← takeLit '/' r3
  let (y, r5) ← take4Y r4
  if r5.isEmpty then mkValidDate y m d else none

/-- strptime for the shape %Y sep %m (day defaulting to 1). -/
def parseYM (sep : Char) (l : List Char) : Option PyDate := do
  let (y, r1) ← take4Y l
  let r2 ← takeLit sep r1
  let (m, r3) ← takeMonthTok r2
  if r3.isEmpty then mkValidDate y m 1 else none

/-- strptime for the bare %Y (month and day defaulting to 1). -/
def parseY4 (l : List Char) : Option PyDate := do
  let (y, r1) ← take4Y l
  if r1.isEmpty then mkValidDate y 1 1 else none

/-- The fixed list of explicit date formats tried by the source, in order. -/
inductive DFmt where
  | ymdDash | ymdSlash | mdySlash | dmySlash | ymDash | ymSlash | yOnly
deriving DecidableEq, Repr

/-- Order of the date_formats list of the source. -/
def dateFormats : List DFmt :=
  [.ymdDash, .ymdSlash, .mdySlash, .dmySlash, .ymDash, .ymSlash, .yOnly]

/-- datetime.strptime of one of the seven explicit formats. -/
def strptimeFmt (f : DFmt) (s : String) : Option PyDate :=
  match f with
  | .ymdDash => parseYMD '-' s.data
  | .ymdSlash => parseYMD '/' s.data
  | .mdySlash => parseMDY s.data
  | .dmySlash => parseDMY s.data
  | .ymDash => parseYM '-' s.data
  | .ymSlash => parseYM '/' s.data
  | .yOnly => parseY4 s.data

/-- Outcome of pandas.to_datetime(s, errors set to coerce): coercion to NaT, a
timestamp, or an exception (ValueError / TypeError) despite coercion. The
library's behaviour is not part of this repository, so it is an oracle. -/
inductive PdResult where
  | naT
  | ts (d : PyDate)
  | err
deriving DecidableEq, Repr

/-! ### Python scalars -/

/-- Python float, modelled as a decimal value or a special value. -/
inductive PyFloat where
  | nan | inf | ninf
  | fin (neg : Bool) (ip : Nat) (frac : List Nat)
deriving DecidableEq, Repr

/-- float.is_integer. -/
def PyFloat.isInteger : PyFloat → Bool
  | .fin _ _ frac => frac.all (· == 0)
  | _ => false

/-- int() truncation of a finite float toward zero. -/
def PyFloat.toIntTrunc : PyFloat → Int
  | .fin neg ip _ => if neg then -(ip : Int) else (ip : Int)
  | _ => 0

/-- An untyped Python scalar as it arrives from a DataFrame cell. -/
inductive PyScalar where
  | null
  | int (n : Int)
  | float (f : PyFloat)
  | str (s : String)
deriving DecidableEq, Repr

/-- pandas.isna on a scalar: true for None and float nan only. -/
def isna : PyScalar → Bool
  | .null => true
  | .float .nan => true
  | _ => false

/-- Decimal digits of a float fraction as characters. -/
def fracDigitsStr (frac : List Nat) : String :=
  String.mk (frac.map (fun d => Char.ofNat (48 + d)))

/-- Python str() of a scalar (repr of finite floats in plain decimal form). -/
def strOfScalar : PyScalar → String
  | .null => "None"
  | .int n => toString n
  | .float .nan => "nan"
  | .float .inf => "inf"
  | .float .ninf => "-inf"
  | .float (.fin neg ip frac) =>
    (if neg then "-" else "") ++ toString ip ++ "." ++
      (if frac.isEmpty then "0" else fracDigitsStr frac)
  | .str s => s

/-- The range check 1800 <= y <= 2000 applied throughout the source. -/
def inYearRange (y : Int) : Bool := 1800 ≤ y && y ≤ 2000

/-- Character class of the clean_name regex [^\w\s\-\.]: the kept characters. -/
def allowedNameChar (c : Char) : Bool := wordCharB c || isPySpace c || c == '-' || c == '.'

/-! ### DataImporter (src/data_importer.py) -/

namespace DataImporter

/-- Sentinel strings rejected by clean_year after strip and lower. -/
def yearSentinel (ys : String) : Bool :=
  ys == "" || ys == "nan" || ys == "inf" || ys == "-inf" || ys == "infinity" || ys == "-infinity"

/-- Age-based fallback of clean_year: pattern age-N mapped to 1900 - N, range
checked (src/data_importer.py lines 217-226). -/
def ageFallback (ys : String) : Option Int :=
  match findAgeNum ys.data with
  | some a =>
    let e : Int := 1900 - (a : Int)
    if inYearRange e then some e else none
  | none => none

/-- String branch of clean_year (src/data_importer.py lines 201-273), applied
to str(year).strip().lower(). -/
def cleanYearStr (ys : String) : Option Int :=
  if yearSentinel ys then none
  else if pyIn "age" ys then
    match findFour ys.data with
    | some y => if inYearRange y then some y else ageFallback ys
    | none => ageFallback ys
  else if pyIn "about" ys || pyIn "c." ys then
    match findFour ys.data with
    | some y => if inYearRange y then some y else none
    | none => none
  else if pyIn " or " ys then
    match findFour (takeBeforeSubstr " or " ys.data) with
    | some y => if inYearRange y then some y else none
    | none => none
  else if pyIn "/" ys then
    let base := takeBeforeSubstr "/" ys.data
    if (fourDigitAt base).isSome then
      match parsePyIntDigits (String.mk base) with
      | some n => if inYearRange n then some n else none
      | none => none
    else none
  else if matchFullDateStart ys.data then
    let y := digitsToNat (ys.data.take 4)
    if inYearRange y then some y else none
  else if matchBareYear ys.data then
    let y := digitsToNat (ys.data.take 4)
    if inYearRange y then some y else none
  else none

/-- DataImporter.clean_year (src/data_importer.py lines 172-273). -/
def clean_year (x : PyScalar) : Option Int :=
  if isna x then none
  else
    match x with
    | .null => none
    | .int n => if inYearRange n then some n else none
    | .float .nan => none
    | .float .inf => none
    | .float .ninf => none
    | .float (.fin neg ip frac) =>
      if (PyFloat.fin neg ip frac).isInteger then
        let n := (PyFloat.fin neg ip frac).toIntTrunc
        if inYearRange n then some n else none
      else none
    | .str s => cleanYearStr (pyLower (pyStrip s))

/-- DataImporter.clean_name (src/data_importer.py lines 163-170): remove the
characters outside the class of word, whitespace, hyphen and period; return
None when nothing is left BEFORE stripping, else the stripped remainder. -/
def clean_name (x : PyScalar) : Option String :=
  if isna x then none
  else
    let cleaned := (strOfScalar x).data.filter allowedNameChar
    if cleaned.isEmpty then none else some (String.mk (stripList cleaned))

/-- Qualifier list of _parse_date, in source order. -/
def qualifiers : List String := ["about", "c.", "circa", "before", "after", "early", "mid", "late"]

/-- Qualifier removal of _parse_date (src/data_importer.py lines 119-126): the
first listed qualifier occurring as a substring of the lowercased input is
removed word-boundedly and the result stripped; otherwise the input is kept. -/
def removeFirstQualifier (ds : String) : String :=
  match qualifiers.find? (fun q => pyIn q (pyLower ds)) with
  | some q => pyStrip (regexSubWB q ds)
  | none => ds

/-- Format loop of _parse_date (src/data_importer.py lines 128-140): the first
format that parses AND lands in the year range wins; an in-format parse with
an out-of-range year just moves on to the next format. -/
def tryFormats (cleaned : String) : List DFmt → Option PyDate
  | [] => none
  | f :: fs =>
    match strptimeFmt f cleaned with
    | some d => if 1800 ≤ d.year && d.year ≤ 2000 then some d else tryFormats cleaned fs
    | none => tryFormats cleaned fs

/-- Last stage of _parse_date (src/data_importer.py lines 149-161): the pandas
flexible parse. Coercion to NaT preserves the uncertainty flags; a raised
error or an out-of-range year resets them. -/
def pandasStage (pdParse : String → PdResult) (cleaned : String) (u : Bool) (t : Option String) :
    Option PyDate × Bool × Option String :=
  match pdParse cleaned with
  | .naT => (none, u, t)
  | .ts d => if 1800 ≤ d.year && d.year ≤ 2000 then (some d, u, t) else (none, false, none)
  | .err => (none, false, none)

/-- DataImporter._parse_date (src/data_importer.py lines 114-161). -/
def parse_date (pdParse : String → PdResult) (s0 : String) (u : Bool) (t : Option String) :
    Option PyDate × Bool × Option String :=
  let cleaned := removeFirstQualifier (pyStrip s0)
  match tryFormats cleaned dateFormats with
  | some d => (some d, u, t)
  | none =>
    match findFour cleaned.data with
    | some y =>
      if 1800 ≤ y && y ≤ 2000 then (some ⟨y, 1, 1⟩, u, t)
      else pandasStage pdParse cleaned u t
    | none => pandasStage pdParse cleaned u t

/-- DataImporter.clean_date (src/data_importer.py lines 59-112). -/
def clean_date (pdParse : String → PdResult) (x : PyScalar) :
    Option PyDate × Bool × Option String :=
  if isna x then (none, false, none)
  else
    let ds := pyStrip (strOfScalar x)
    if ds == "" || pyLower ds == "nan" || pyLower ds == "none" || pyLower ds == "null" ||
        pyLower ds == "nat" then
      (none, false, none)
    else if pyIn ";" ds then
      parse_date pdParse (pyStrip (String.mk (takeBeforeSubstr ";" ds.data))) true (some "multiple_dates")
    else if matchRangeYY ds.data then
      parse_date pdParse (String.mk (takeBeforeSubstr "-" ds.data)) true (some "range")
    else if pyIn "about" (pyLower ds) || pyIn "c." (pyLower ds) || pyIn "circa" (pyLower ds) then
      parse_date pdParse ds true (some "approximate")
    else if pyIn "before" (pyLower ds) then
      parse_date pdParse ds true (some "before")
    else if pyIn "after" (pyLower ds) then
      parse_date pdParse ds true (some "after")
    else if pyIn "early" (pyLower ds) || pyIn "mid" (pyLower ds) || pyIn "late" (pyLower ds) then
      parse_date pdParse ds true (some "period_qualifier")
    else
      parse_date pdParse ds false none

/-- Per-value year handling of validate_and_clean_dataframe (src/data_importer.py
lines 635-652): the cleaned year plus the uncertainty tagging, which marks any
original text containing the substring age as estimated_from_age. -/
def processYearValue (v : PyScalar) : Option Int × Bool × Option String :=
  let cleaned := if isna v then none else clean_year v
  if !isna v && pyIn "age" (pyLower (strOfScalar v)) then
    (cleaned, true, some "estimated_from_age")
  else
    (cleaned, false, none)

/-- Row-insertion loop of DataImporter.import_to_db (src/data_importer.py lines
866-1043): each row's assembly and INSERT is a fallible action; on failure the
source logs the row and re-raises, so the error propagates and the remaining
rows are never processed. -/
def insertRowsLoop {α β ε : Type} (insertRow : α → Except ε β) : List α → Except ε (List β)
  | [] => Except.ok []
  | r :: rs =>
    match insertRow r with
    | Except.ok b =>
      match insertRowsLoop insertRow rs with
      | Except.ok bs => Except.ok (b :: bs)
      | Except.error e => Except.error e
    | Except.error e => Except.error e

end DataImporter

/-! ### Column-format resolution of validate_and_clean_dataframe -/

namespace DataImporter

/-- Format 1 of validate_and_clean_dataframe: spaced labels. -/
def spacedMap : List (String × String) :=
  [("Census Record 1900", "census_record_1900"),
   ("Indian Name", "indian_name"),
   ("Tribal Name", "indian_name"),
   ("Family Name", "family_name"),
   ("English given name", "english_given_name"),
   ("Alias", "alias"),
   ("Sex", "sex"),
   ("Year of birth", "year_of_birth"),
   ("Arrival at Lincoln", "arrival_at_lincoln"),
   ("Departure from Lincoln", "departure_from_lincoln"),
   ("Nation", "nation"),
   ("Band", "band"),
   ("Agency", "agency"),
   ("Trade", "trade"),
   ("Source", "source"),
   ("Comments", "comments"),
   ("Cause of Death", "cause_of_death"),
   ("Cemetery / Burial", "cemetery_burial"),
   ("Cemetery / Burial with protective quotes", "cemetery_burial"),
   ("Relevant Links", "relevant_links")]

/-- Format 2 of validate_and_clean_dataframe: camelCase labels. -/
def camelMap : List (String × String) :=
  [("censusRecord1900", "census_record_1900"),
   ("tribalName", "indian_name"),
   ("familyName", "family_name"),
   ("englishGivenName", "english_given_name"),
   ("alias", "alias"),
   ("sex", "sex"),
   ("yearOfBirth", "year_of_birth"),
   ("arrivalAtLincoln", "arrival_at_lincoln"),
   ("departureFromLincoln", "departure_from_lincoln"),
   ("nation", "nation"),
   ("band", "band"),
   ("agency", "agency"),
   ("trade", "trade"),
   ("source", "source"),
   ("comments", "comments"),
   ("causeOfDeath", "cause_of_death"),
   ("cemeteryBurial", "cemetery_burial"),
   ("relevantLinks", "relevant_links")]

/-- Format 3 of validate_and_clean_dataframe: underscore labels. -/
def underscoreMap : List (String × String) :=
  [("census_record_1900", "census_record_1900"),
   ("indian_name", "indian_name"),
   ("family_name", "family_name"),
   ("english_given_name", "english_given_name"),
   ("alias", "alias"),
   ("sex", "sex"),
   ("year_of_birth", "year_of_birth"),
   ("arrival_at_lincoln", "arrival_at_lincoln"),
   ("departure_from_lincoln", "departure_from_lincoln"),
   ("nation", "nation"),
   ("band", "band"),
   ("agency", "agency"),
   ("trade", "trade"),
   ("source", "source"),
   ("comments", "comments"),
   ("cause_of_death", "cause_of_death"),
   ("cemetery_burial", "cemetery_burial"),
   ("relevant_links", "relevant_links")]

/-- Format 4 of validate_and_clean_dataframe: short labels. -/
def shortMap : List (String × String) :=
  [("census", "census_record_1900"),
   ("tribal", "indian_name"),
   ("family", "family_name"),
   ("english", "english_given_name"),
   ("alias", "alias"),
   ("sex", "sex"),
   ("birth", "year_of_birth"),
   ("arrival", "arrival_at_lincoln"),
   ("departure", "departure_from_lincoln"),
   ("nation", "nation"),
   ("band", "band"),
   ("agency", "agency"),
   ("trade", "trade"),
   ("source", "source"),
   ("comments", "comments"),
   ("death", "cause_of_death"),
   ("burial", "cemetery_burial"),
   ("links", "relevant_links")]

/-- Format 5 of validate_and_clean_dataframe: positional labels of the
Rewritten_Data.csv export. -/
def reworkedMap : List (String × String) :=
  [("0", "indian_name"),
   ("1", "family_name"),
   ("2", "english_given_name"),
   ("3", "alias"),
   ("4", "sex"),
   ("5", "year_of_birth"),
   ("6", "arrival_at_lincoln"),
   ("7", "departure_from_lincoln"),
   ("8", "nation"),
   ("9", "band"),
   ("10", "agency"),
   ("11", "trade"),
   ("12", "source"),
   ("13", "comments"),
   ("14", "cause_of_death"),
   ("15", "cemetery_burial"),
   ("16", "relevant_links")]

/-- The catalog of the five conventions, in the source dict insertion order. -/
def mappingsList : List (String × List (String × String)) :=
  [("spaced", spacedMap), ("camel", camelMap), ("underscore", underscoreMap),
   ("short", shortMap), ("reworked", reworkedMap)]

/-- Mapping keys lowercased, as the source computes mapping_lower. -/
def lowerKeys (m : List (String × String)) : List (String × String) :=
  m.map (fun kv => (pyLower kv.1, kv.2))

/-- Exact-phase score: number of (already lowercased) file columns that equal a
key of the lowercased mapping. -/
def exactCount (colsL : List String) (m : List (String × String)) : Nat :=
  (colsL.filter (fun c => (lowerKeys m).any (fun kv => kv.1 == c))).length

/-- Fuzzy-phase score: number of distinct (already lowercased) file columns
related to some mapping key by substring containment in either direction; the
source collects them in a dict keyed by column, hence the deduplication. -/
def fuzzyCount (colsL : List String) (m : List (String × String)) : Nat :=
  ((colsL.eraseDups).filter
    (fun c => (lowerKeys m).any (fun kv => pyIn kv.1 c || pyIn c kv.1))).length

/-- Strict-improvement selection loop over the convention scores, as both
phases of the source run it. -/
def selectFormat (counts : List (String × Nat)) (acc : Nat × Option String) : Nat × Option String :=
  counts.foldl (fun a p => if p.2 > a.1 then (p.2, some p.1) else a) acc

/-- Message of the ValueError raised on schema mismatch (the Python message
also carries the unordered set of missing labels). -/
def schemaMismatchMsg : String := "Missing required columns"

/-- Column-format resolution of validate_and_clean_dataframe
(src/data_importer.py lines 499-553): the Rewritten_Data.csv shortcut, the
exact phase, the fuzzy fallback phase and the failure. Returns the chosen
convention name with its winning score. -/
def resolveColumnFormat (endsRewritten : Bool) (cols0 : List String) : Except String (String × Nat) :=
  let cols := cols0.map pyStrip
  let colsL := cols.map pyLower
  let r1 :=
    if endsRewritten then (cols.length, some "reworked")
    else selectFormat (mappingsList.map (fun nm => (nm.1, exactCount colsL nm.2))) (0, none)
  let r2 :=
    if r1.1 == 0 then
      selectFormat (mappingsList.map (fun nm => (nm.1, fuzzyCount colsL nm.2))) (0, r1.2)
    else r1
  if r2.1 == 0 then Except.error schemaMismatchMsg
  else
    match r2.2 with
    | some f => Except.ok (f, r2.1)
    | none => Except.error schemaMismatchMsg

/-- Fuzzy score of a convention given by name. -/
def fuzzyCountOf (f : String) (colsL : List String) : Nat :=
  match mappingsList.find? (fun nm => nm.1 == f) with
  | some nm => fuzzyCount colsL nm.2
  | none => 0

end DataImporter

/-! ### LincolnImporter (src/src/lincoln_importer.py) -/

namespace LincolnImporter

/-- Record-assembly loop of LincolnImporter._process_lincoln_data and
_process_orphans_data (src/src/lincoln_importer.py lines 126-170 and 187-235):
each row's cleaning is a fallible action; on failure the source logs a warning
and continues, so the row is skipped and the remaining rows are processed. -/
def processRowsSkip {α β ε : Type} (cleanRow : α → Except ε β) : List α → List β
  | [] => []
  | r :: rs =>
    match cleanRow r with
    | Except.ok b => b :: processRowsSkip cleanRow rs
    | Except.error _ => processRowsSkip cleanRow rs

end LincolnImporter

/-! ### DataProcessor (src/src/data_processor.py), the hand-duplicated copy -/

namespace DataProcessor

/-- Sentinel strings rejected by clean_year after strip and lower. -/
def yearSentinel (ys : String) : Bool :=
  ys == "" || ys == "nan" || ys == "inf" || ys == "-inf" || ys == "infinity" || ys == "-infinity"

/-- Age-based fallback of clean_year (src/src/data_processor.py lines 175-184). -/
def ageFallback (ys : String) : Option Int :=
  match findAgeNum ys.data with
  | some a =>
    let e : Int := 1900 - (a : Int)
    if inYearRange e then some e else none
  | none => none

/-- String branch of clean_year (src/src/data_processor.py lines 159-231). -/
def cleanYearStr (ys : String) : Option Int :=
  if yearSentinel ys then none
  else if pyIn "age" ys then
    match findFour ys.data with
    | some y => if inYearRange y then some y else ageFallback ys
    | none => ageFallback ys
  else if pyIn "about" ys || pyIn "c." ys then
    match findFour ys.data with
    | some y => if inYearRange y then some y else none
    | none => none
  else if pyIn " or " ys then
    match findFour (takeBeforeSubstr " or " ys.data) with
    | some y => if inYearRange y then some y else none
    | none => none
  else if pyIn "/" ys then
    let base := takeBeforeSubstr "/" ys.data
    if (fourDigitAt base).isSome then
      match parsePyIntDigits (String.mk base) with
      | some n => if inYearRange n then some n else none
      | none => none
    else none
  else if matchFullDateStart ys.data then
    let y := digitsToNat (ys.data.take 4)
    if inYearRange y then some y else none
  else if matchBareYear ys.data then
    let y := digitsToNat (ys.data.take 4)
    if inYearRange y then some y else none
  else none

/-- DataProcessor.clean_year (src/src/data_processor.py lines 130-231). -/
def clean_year (x : PyScalar) : Option Int :=
  if isna x then none
  else
    match x with
    | .null => none
    | .int n => if inYearRange n then some n else none
    | .float .nan => none
    | .float .inf => none
    | .float .ninf => none
    | .float (.fin neg ip frac) =>
      if (PyFloat.fin neg ip frac).isInteger then
        let n := (PyFloat.fin neg ip frac).toIntTrunc
        if inYearRange n then some n else none
      else none
    | .str s => cleanYearStr (pyLower (pyStrip s))

/-- DataProcessor.clean_name (src/src/data_processor.py lines 121-128). -/
def clean_name (x : PyScalar) : Option String :=
  if isna x then none
  else
    let cleaned := (strOfScalar x).data.filter allowedNameChar
    if cleaned.isEmpty then none else some (String.mk (stripList cleaned))

/-- Qualifier list of _parse_date, in source order. -/
def qualifiers : List String := ["about", "c.", "circa", "before", "after", "early", "mid", "late"]

/-- Qualifier removal of _parse_date (src/src/data_processor.py lines 77-84). -/
def removeFirstQualifier (ds : String) : String :=
  match qualifiers.find? (fun q => pyIn q (pyLower ds)) with
  | some q => pyStrip (regexSubWB q ds)
  | none => ds

/-- Format loop of _parse_date (src/src/data_processor.py lines 86-98). -/
def tryFormats (cleaned : String) : List DFmt → Option PyDate
  | [] => none
  | f :: fs =>
    match strptimeFmt f cleaned with
    | some d => if 1800 ≤ d.year && d.year ≤ 2000 then some d else tryFormats cleaned fs
    | none => tryFormats cleaned fs

/-- Pandas stage of _parse_date (src/src/data_processor.py lines 107-119). -/
def pandasStage (pdParse : String → PdResult) (cleaned : String) (u : Bool) (t : Option String) :
    Option PyDate × Bool × Option String :=
  match pdParse cleaned with
  | .naT => (none, u, t)
  | .ts d => if 1800 ≤ d.year && d.year ≤ 2000 then (some d, u, t) else (none, false, none)
  | .err => (none, false, none)

/-- DataProcessor._parse_date (src/src/data_processor.py lines 72-119). -/
def parse_date (pdParse : String → PdResult) (s0 : String) (u : Bool) (t : Option String) :
    Option PyDate × Bool × Option String :=
  let cleaned := removeFirstQualifier (pyStrip s0)
  match tryFormats cleaned dateFormats with
  | some d => (some d, u, t)
  | none =>
    match findFour cleaned.data with
    | some y =>
      if 1800 ≤ y && y ≤ 2000 then (some ⟨y, 1, 1⟩, u, t)
      else pandasStage pdParse cleaned u t
    | none => pandasStage pdParse cleaned u t

/-- DataProcessor.clean_date (src/src/data_processor.py lines 17-70). -/
def clean_date (pdParse : String → PdResult) (x : PyScalar) :
    Option PyDate × Bool × Option String :=
  if isna x then (none, false, none)
  else
    let ds := pyStrip (strOfScalar x)
    if ds == "" || pyLower ds == "nan" || pyLower ds == "none" || pyLower ds == "null" ||
        pyLower ds == "nat" then
      (none, false, none)
    else if pyIn ";" ds then
      parse_date pdParse (pyStrip (String.mk (takeBeforeSubstr ";" ds.data))) true (some "multiple_dates")
    else if matchRangeYY ds.data then
      parse_date pdParse (String.mk (takeBeforeSubstr "-" ds.data)) true (some "range")
    else if pyIn "about" (pyLower ds) || pyIn "c." (pyLower ds) || pyIn "circa" (pyLower ds) then
      parse_date pdParse ds true (some "approximate")
    else if pyIn "before" (pyLower ds) then
      parse_date pdParse ds true (some "before")
    else if pyIn "after" (pyLower ds) then
      parse_date pdParse ds true (some "after")
    else if pyIn "early" (pyLower ds) || pyIn "mid" (pyLower ds) || pyIn "late" (pyLower ds) then
      parse_date pdParse ds true (some "period_qualifier")
    else
      parse_date pdParse ds false none

end DataProcessor

/-- Twofold application of clean_name: the outer call receives the inner
result (None becoming the Python None scalar), for the idempotence claim. -/
def cleanNameTwice (x : PyScalar) : Option String :=
  match DataImporter.clean_name x with
  | none => DataImporter.clean_name PyScalar.null
  | some s => DataImporter.clean_name (PyScalar.str s)

/-! ### Helper lemmas -/

theorem dropWhile_head?_not {p : Char → Bool} : ∀ {l : List Char} {c : Char},
    (l.dropWhile p).head? = some c → p c = false := by
  intro l
  induction l with
  | nil => intro c h; simp [List.dropWhile] at h
  | cons a t ih =>
    intro c h
    by_cases hp : p a = true
    · rw [List.dropWhile_cons_of_pos hp] at h
      exact ih h
    · rw [List.dropWhile_cons_of_neg hp] at h
      simp only [List.head?_cons, Option.some.injEq] at h
      subst h
      exact Bool.eq_false_iff.mpr hp

theorem dropWhile_of_head?_not {p : Char → Bool} {l : List Char}
    (h : ∀ c, l.head? = some c → p c = false) : l.dropWhile p = l := by
  cases l with
  | nil => rfl
  | cons a t =>
    have := h a rfl
    rw [List.dropWhile_cons_of_neg (by simp [this])]

theorem prefix_head?_some {l₁ l₂ : List Char} {c : Char} (hp : l₁ <+: l₂)
    (h : l₁.head? = some c) : l₂.head? = some c := by
  rcases hp with ⟨t, rfl⟩
  cases l₁ with
  | nil => simp at h
  | cons a t1 => simpa using h

theorem dropTrailing_prefix (m : List Char) : dropTrailing m <+: m := by
  have h1 : (m.reverse.dropWhile isPySpace) <:+ m.reverse := List.dropWhile_suffix isPySpace
  have h2 := List.reverse_prefix.mpr h1
  simpa [dropTrailing] using h2

theorem stripList_sublist (l : List Char) : List.Sublist (stripList l) l := by
  have h1 : (dropTrailing (l.dropWhile isPySpace)) <+: (l.dropWhile isPySpace) :=
    dropTrailing_prefix _
  exact List.Sublist.trans h1.sublist (List.dropWhile_sublist isPySpace)

theorem stripList_head?_not {l : List Char} {c : Char}
    (h : (stripList l).head? = some c) : isPySpace c = false := by
  have hp : (stripList l) <+: (l.dropWhile isPySpace) := dropTrailing_prefix _
  exact dropWhile_head?_not (prefix_head?_some hp h)

theorem stripList_getLast?_not {l : List Char} {c : Char}
    (h : (stripList l).getLast? = some c) : isPySpace c = false := by
  unfold stripList dropTrailing at h
  rw [List.getLast?_reverse] at h
  exact dropWhile_head?_not h

theorem stripList_eq_self {l : List Char}
    (h1 : ∀ c, l.head? = some c → isPySpace c = false)
    (h2 : ∀ c, l.getLast? = some c → isPySpace c = false) : stripList l = l := by
  unfold stripList dropTrailing
  rw [dropWhile_of_head?_not h1]
  rw [dropWhile_of_head?_not (fun c hc => h2 c (by rwa [List.head?_reverse] at hc))]
  exact List.reverse_reverse l

theorem stripList_idem (l : List Char) : stripList (stripList l) = stripList l :=
  stripList_eq_self (fun _ h => stripList_head?_not h) (fun _ h => stripList_getLast?_not h)

theorem selectFormat_const {l : List (String × Nat)} {f0 : Option String}
    (h : ∀ p ∈ l, p.2 = 0) : DataImporter.selectFormat l (0, f0) = (0, f0) := by
  induction l with
  | nil => rfl
  | cons q t ih =>
    have hq : q.2 = 0 := h q (by simp)
    unfold DataImporter.selectFormat at *
    rw [List.foldl_cons]
    simp only [hq]
    exact ih (fun p hp => h p (by simp [hp]))

theorem selectFormat_spec (l : List (String × Nat)) : ∀ (acc : Nat × Option String),
    acc.1 ≤ (DataImporter.selectFormat l acc).1 ∧
    (∀ p ∈ l, p.2 ≤ (DataImporter.selectFormat l acc).1) ∧
    (DataImporter.selectFormat l acc = acc ∨
      ∃ p ∈ l, DataImporter.selectFormat l acc = (p.2, some p.1)) := by
  induction l with
  | nil => intro acc; exact ⟨le_refl _, by simp, Or.inl rfl⟩
  | cons q t ih =>
    intro acc
    have hstep : DataImporter.selectFormat (q :: t) acc =
        DataImporter.selectFormat t (if q.2 > acc.1 then (q.2, some q.1) else acc) := by
      unfold DataImporter.selectFormat
      rw [List.foldl_cons]
    rw [hstep]
    rcases ih (if q.2 > acc.1 then (q.2, some q.1) else acc) with ⟨ha, hb, hc⟩
    refine ⟨?_, ?_, ?_⟩
    · refine le_trans ?_ ha
      by_cases hq : q.2 > acc.1
      · simp only [if_pos hq]
        omega
      · simp [hq]
    · intro p hp
      rcases List.mem_cons.mp hp with rfl | hpt
      · refine le_trans ?_ ha
        by_cases hq : p.2 > acc.1
        · simp [hq]
        · simp only [if_neg hq]
          omega
      · exact hb p hpt
    · rcases hc with hc | ⟨p, hp, hc⟩
      · by_cases hq : q.2 > acc.1
        · rw [if_pos hq] at hc
          rw [if_pos hq]
          exact Or.inr ⟨q, by simp, hc⟩
        · rw [if_neg hq] at hc
          rw [if_neg hq]
          exact Or.inl hc
      · exact Or.inr ⟨p, by simp [hp], hc⟩

/-! ### Claim C1: row-level failure handling of the import loops -/

/-- Claim C1 (counterexample): in DataImporter.import_to_db a failing row is
logged and then re-raised, so the row-level error escapes the insert loop,
aborts the import, and the remaining rows are never processed — here a
two-row import aborts on the first row with nothing inserted. -/
theorem claim_C1_counterexample :
    DataImporter.insertRowsLoop
        (fun n : Nat => if n == 0 then (Except.error "insert failed" : Except String Nat) else Except.ok n)
        [0, 1] = Except.error "insert failed" ∧
    (DataImporter.insertRowsLoop
        (fun n : Nat => if n == 0 then (Except.error "insert failed" : Except String Nat) else Except.ok n)
        [0, 1]).isOk = false := by
  exact ⟨rfl, rfl⟩

/-- Claim C1 (amended): only the clean-architecture record-assembly loop of
LincolnImporter catches, logs and skips a failing row and continues with the
remaining rows; the insert loop of DataImporter.import_to_db logs a failing
row and re-raises, so there the error escapes and aborts the whole file's
import. -/
theorem claim_C1_amended {α β : Type} (f : α → Except String β) (r : α) (rs : List α) :
    (∀ e, f r = Except.error e →
        LincolnImporter.processRowsSkip f (r :: rs) = LincolnImporter.processRowsSkip f rs ∧
        DataImporter.insertRowsLoop f (r :: rs) = Except.error e) ∧
    (∀ b, f r = Except.ok b →
        LincolnImporter.processRowsSkip f (r :: rs) = b :: LincolnImporter.processRowsSkip f rs) := by
  constructor
  · intro e he
    constructor
    · simp [LincolnImporter.processRowsSkip, he]
    · simp [DataImporter.insertRowsLoop, he]
  · intro b hb
    simp [LincolnImporter.processRowsSkip, hb]

/-- Claim C1 (witness): the amended theorem at a concrete failing first row:
the skip loop drops row 0 and still processes row 1, the insert loop aborts. -/
theorem claim_C1_witness :
    LincolnImporter.processRowsSkip
        (fun n : Nat => if n == 0 then (Except.error "boom" : Except String Nat) else Except.ok n)
        [0, 1] = [1] ∧
    DataImporter.insertRowsLoop
        (fun n : Nat => if n == 0 then (Except.error "boom" : Except String Nat) else Except.ok n)
        [0, 1] = Except.error "boom" := by
  have h := (claim_C1_amended
    (fun n : Nat => if n == 0 then (Except.error "boom" : Except String Nat) else Except.ok n)
    0 [1]).1 "boom" rfl
  exact ⟨h.1.trans rfl, h.2⟩

/-! ### Claim C9: the Rewritten_Data.csv shortcut -/

/-- Claim C9 (counterexample): for a DataFrame with no columns (possible after
the unnamed-column drop) the Rewritten_Data.csv shortcut sets the match count
to zero, so resolution falls through to partial matching and then fails with
the schema-mismatch error instead of selecting the reworked convention. -/
theorem claim_C9_counterexample :
    DataImporter.resolveColumnFormat true [] = Except.error DataImporter.schemaMismatchMsg ∧
    (DataImporter.resolveColumnFormat true []).isOk = false := by
  exact ⟨rfl, rfl⟩

/-- Claim C9 (amended): for every DataFrame with at least one column, a file
path ending in Rewritten_Data.csv makes the resolver select the positional
reworked convention unconditionally, with the column count as its score — the
header labels themselves never influence the choice. -/
theorem claim_C9_amended (cols : List String) (h : cols ≠ []) :
    DataImporter.resolveColumnFormat true cols = Except.ok ("reworked", cols.length) := by
  have hl : (cols.map pyStrip).length = cols.length := List.length_map _ _
  have hne : cols.length ≠ 0 := fun h0 => h (List.length_eq_zero.mp h0)
  unfold DataImporter.resolveColumnFormat
  simp only [if_pos rfl, hl]
  have hb : (cols.length == 0) = false := by
    simp [hne]
  simp [hb]

/-- Claim C9 (witness): the amended theorem at a one-column header row. -/
theorem claim_C9_witness :
    DataImporter.resolveColumnFormat true ["0"] = Except.ok ("reworked", 1) :=
  claim_C9_amended ["0"] (by simp)

/-! ### Claim C10: the two hand-duplicated implementations agree -/

theorem dup_tryFormats : DataProcessor.tryFormats = DataImporter.tryFormats := by
  funext c fs
  induction fs with
  | nil => rfl
  | cons f t ih =>
    unfold DataProcessor.tryFormats DataImporter.tryFormats
    cases h : strptimeFmt f c with
    | some d => simp [h, ih]
    | none => simp [h, ih]

theorem dup_parse_date : DataProcessor.parse_date = DataImporter.parse_date := by
  unfold DataProcessor.parse_date DataImporter.parse_date
  rw [dup_tryFormats]
  rw [show DataProcessor.removeFirstQualifier = DataImporter.removeFirstQualifier from rfl]
  rw [show DataProcessor.pandasStage = DataImporter.pandasStage from rfl]

theorem dup_clean_date : DataProcessor.clean_date = DataImporter.clean_date := by
  unfold DataProcessor.clean_date DataImporter.clean_date
  rw [dup_parse_date]

/-- Claim C10: the hand-duplicated cleaning implementations are extensionally
equal: DataImporter and DataProcessor agree on clean_year, clean_date (for
every pandas oracle) and clean_name at every scalar input. -/
theorem claim_C10 :
    (∀ x, DataImporter.clean_year x = DataProcessor.clean_year x) ∧
    (∀ pdParse x, DataImporter.clean_date pdParse x = DataProcessor.clean_date pdParse x) ∧
    (∀ x, DataImporter.clean_name x = DataProcessor.clean_name x) := by
  refine ⟨fun x => ?_, fun p x => ?_, fun x => ?_⟩
  · exact (congrFun (show DataProcessor.clean_year = DataImporter.clean_year from rfl) x).symm
  · exact (congrFun (congrFun dup_clean_date p) x).symm
  · exact (congrFun (show DataProcessor.clean_name = DataImporter.clean_name from rfl) x).symm

/-! ### Claim C7: the name normalizer -/

/-- Claim C7 (counterexample): a lone space survives the character removal, so
the emptiness test (which the source applies BEFORE stripping) passes and the
stripped empty string is returned instead of null; and an underscore is a
regex word character, so it is kept although it is not alphanumeric,
whitespace, hyphen or period. -/
theorem claim_C7_counterexample :
    DataImporter.clean_name (.str " ") = some "" ∧
    DataImporter.clean_name (.str "a_b") = some "a_b" ∧
    some "" ≠ (none : Option String) ∧
    some "a_b" ≠ some "ab" := by
  refine ⟨rfl, rfl, by decide, by decide⟩

/-- Claim C7 (amended): null/NaN input yields null; otherwise every character
outside the class of word characters (alphanumeric or underscore), whitespace,
hyphen and period is removed; the output is null exactly when the removal
leaves nothing BEFORE trimming; otherwise the output is the trimmed remainder,
every character of which is in the kept class (so it can be the empty string
when only whitespace was kept). -/
theorem claim_C7_amended (x : PyScalar) :
    (isna x = true → DataImporter.clean_name x = none) ∧
    (isna x = false →
      ((((strOfScalar x).data.filter allowedNameChar).isEmpty = true) ↔
        DataImporter.clean_name x = none)) ∧
    (∀ s, DataImporter.clean_name x = some s →
      s.data = stripList ((strOfScalar x).data.filter allowedNameChar) ∧
      ∀ c ∈ s.data, allowedNameChar c = true) := by
  refine ⟨?_, ?_, ?_⟩
  · intro h
    simp [DataImporter.clean_name, h]
  · intro h
    unfold DataImporter.clean_name
    rw [h]
    simp only [Bool.false_eq_true, if_false]
    constructor
    · intro he
      rw [if_pos he]
    · intro he
      by_cases hc : ((strOfScalar x).data.filter allowedNameChar).isEmpty = true
      · exact hc
      · rw [if_neg hc] at he
        exact absurd he (by simp)
  · intro s hs
    unfold DataImporter.clean_name at hs
    by_cases hna : isna x = true
    · rw [if_pos hna] at hs
      exact absurd hs (by simp)
    · rw [if_neg hna] at hs
      by_cases hc : ((strOfScalar x).data.filter allowedNameChar).isEmpty = true
      · rw [if_pos hc] at hs
        exact absurd hs (by simp)
      · rw [if_neg hc] at hs
        have hd : s.data = stripList ((strOfScalar x).data.filter allowedNameChar) := by
          have := congrArg String.data (Option.some.inj hs)
          exact this.symm
        refine ⟨hd, ?_⟩
        intro c hcmem
        rw [hd] at hcmem
        exact List.of_mem_filter ((stripList_sublist _).subset hcmem)

/-- Claim C7 (witness): the amended theorem exercised at concrete inputs: a
null input, an input whose characters are all removed, and a mixed input whose
surviving characters are exactly the kept class, trimmed. -/
theorem claim_C7_witness :
    DataImporter.clean_name PyScalar.null = none ∧
    DataImporter.clean_name (.str "@!") = none ∧
    (" John@ Smith. " : String).data.filter allowedNameChar =
      (" John Smith. " : String).data ∧
    DataImporter.clean_name (.str " John@ Smith. ") = some "John Smith." ∧
    ("John Smith." : String).data = stripList (" John Smith. " : String).data := by
  refine ⟨(claim_C7_amended PyScalar.null).1 rfl, ?_, by decide, rfl, ?_⟩
  · exact ((claim_C7_amended (.str "@!")).2.1 rfl).mp (by decide)
  · have h := ((claim_C7_amended (.str " John@ Smith. ")).2.2 "John Smith." rfl).1
    simpa using h

/-! ### Claim C8: idempotence of the name normalizer -/

/-- Claim C8 (counterexample): clean_name is not idempotent: a lone space maps
to the empty string, and the empty string then maps to null, so the twofold
application disagrees with the single one. -/
theorem claim_C8_counterexample :
    DataImporter.clean_name (.str " ") = some "" ∧
    cleanNameTwice (.str " ") = none ∧
    cleanNameTwice (.str " ") ≠ DataImporter.clean_name (.str " ") := by
  refine ⟨rfl, rfl, by decide⟩

/-- Claim C8 (amended): clean_name is idempotent at every input whose single
application does not produce the empty string: re-normalizing such an
already-normalized value is a no-op. The empty-string outputs (produced
exactly by whitespace-only survivors, see the C7 analysis) are the only
fixpoint failures. -/
theorem claim_C8_amended (x : PyScalar) (hne : DataImporter.clean_name x ≠ some "") :
    cleanNameTwice x = DataImporter.clean_name x := by
  cases h : DataImporter.clean_name x with
  | none =>
    simp only [cleanNameTwice, h]
    rfl
  | some s =>
    rw [h] at hne
    have hsne : s ≠ "" := fun he => hne (by rw [he])
    simp only [cleanNameTwice, h]
    unfold DataImporter.clean_name at h
    by_cases hna : isna x = true
    · rw [if_pos hna] at h
      exact absurd h (by simp)
    · rw [if_neg hna] at h
      by_cases hc : ((strOfScalar x).data.filter allowedNameChar).isEmpty = true
      · rw [if_pos hc] at h
        exact absurd h (by simp)
      · rw [if_neg hc] at h
        have hd : s = String.mk (stripList ((strOfScalar x).data.filter allowedNameChar)) :=
          (Option.some.inj h).symm
        have hall : ∀ c ∈ stripList ((strOfScalar x).data.filter allowedNameChar),
            allowedNameChar c = true := fun c hcm =>
          List.of_mem_filter ((stripList_sublist _).subset hcm)
        have hfilter : s.data.filter allowedNameChar = s.data := by
          rw [hd]
          exact List.filter_eq_self.mpr hall
        have hdne : s.data ≠ [] := by
          intro he
          refine hsne ?_
          cases s with
          | mk l =>
            simp only [String.data] at he
            subst he
            rfl
        unfold DataImporter.clean_name
        rw [if_neg (by simp [isna])]
        have hso : strOfScalar (.str s) = s := rfl
        rw [hso, hfilter, if_neg (by simp [hdne])]
        have hidem : stripList s.data = s.data := by
          rw [hd]
          exact stripList_idem _
        rw [hidem]

/-- Claim C8 (witness): the amended theorem at inputs with a null result and
with a nonempty normalized result. -/
theorem claim_C8_witness :
    cleanNameTwice (.str "@!") = DataImporter.clean_name (.str "@!") ∧
    cleanNameTwice (.str " John@ Smith. ") = DataImporter.clean_name (.str " John@ Smith. ") := by
  refine ⟨claim_C8_amended (.str "@!") (by decide), claim_C8_amended (.str " John@ Smith. ") (by decide)⟩

/-! ### Claim C2: total date-parse failure and the uncertainty flags -/

/-- Claim C2 (counterexample): an input with the qualifier about whose cleaned
remainder fails every explicit format and the four-digit extraction, and which
the flexible pandas parse coerces to NaT, yields (null, true, approximate):
the uncertainty flags detected before parsing are PRESERVED on this total
failure path, not reset to (false, null) as the claim states. -/
theorem claim_C2_counterexample :
    DataImporter.removeFirstQualifier (pyStrip "about zzz") = "zzz" ∧
    DataImporter.tryFormats "zzz" dateFormats = none ∧
    findFour ("zzz" : String).data = none ∧
    DataImporter.clean_date (fun _ => PdResult.naT) (.str "about zzz") =
      (none, true, some "approximate") ∧
    ((none, true, some "approximate") : Option PyDate × Bool × Option String) ≠
      (none, false, none) := by
  refine ⟨rfl, rfl, rfl, rfl, by decide⟩

/-- Claim C2 (amended): when every explicit format fails on the cleaned string
and it contains no four-digit run, the result date is null, but the flags
depend on HOW the flexible pandas parse fails: coercion to NaT preserves the
incoming uncertainty flags (null, is_uncertain, uncertainty_type); only a
raised error or an out-of-range parsed year resets them to (null, false,
null). -/
theorem claim_C2_amended (pdParse : String → PdResult) (s0 : String) (u : Bool)
    (t : Option String)
    (hf : DataImporter.tryFormats (DataImporter.removeFirstQualifier (pyStrip s0)) dateFormats = none)
    (h4 : findFour (DataImporter.removeFirstQualifier (pyStrip s0)).data = none) :
    (pdParse (DataImporter.removeFirstQualifier (pyStrip s0)) = PdResult.naT →
      DataImporter.parse_date pdParse s0 u t = (none, u, t)) ∧
    (pdParse (DataImporter.removeFirstQualifier (pyStrip s0)) = PdResult.err →
      DataImporter.parse_date pdParse s0 u t = (none, false, none)) ∧
    (∀ d, pdParse (DataImporter.removeFirstQualifier (pyStrip s0)) = PdResult.ts d →
      (1800 ≤ d.year && d.year ≤ 2000) = false →
      DataImporter.parse_date pdParse s0 u t = (none, false, none)) := by
  refine ⟨?_, ?_, ?_⟩
  · intro hp
    simp only [DataImporter.parse_date, hf, h4, DataImporter.pandasStage, hp]
  · intro hp
    simp only [DataImporter.parse_date, hf, h4, DataImporter.pandasStage, hp]
  · intro d hp hr
    simp only [DataImporter.parse_date, hf, h4, DataImporter.pandasStage, hp, hr]
    simp

/-- Claim C2 (witness): the amended theorem at the qualifier-free remainder
zzz with the three oracle behaviours. -/
theorem claim_C2_witness :
    DataImporter.parse_date (fun _ => PdResult.naT) "zzz" true (some "approximate") =
      (none, true, some "approximate") ∧
    DataImporter.parse_date (fun _ => PdResult.err) "zzz" true (some "approximate") =
      (none, false, none) ∧
    DataImporter.parse_date (fun _ => PdResult.ts ⟨1750, 1, 1⟩) "zzz" true (some "approximate") =
      (none, false, none) := by
  refine ⟨(claim_C2_amended (fun _ => PdResult.naT) "zzz" true (some "approximate") rfl rfl).1 rfl,
    (claim_C2_amended (fun _ => PdResult.err) "zzz" true (some "approximate") rfl rfl).2.1 rfl,
    (claim_C2_amended (fun _ => PdResult.ts ⟨1750, 1, 1⟩) "zzz" true (some "approximate")
      rfl rfl).2.2 ⟨1750, 1, 1⟩ rfl (by decide)⟩

/-! ### Claim C3: the year normalizer on plain years -/

/-- Claim C3: for every integer year in [1800, 2000] the year normalizer
returns the year itself both for the numeric input and for its decimal string;
for every integer outside the range the numeric input yields null. -/
theorem claim_C3 :
    (∀ y : Int, 1800 ≤ y → y ≤ 2000 → DataImporter.clean_year (.int y) = some y) ∧
    (∀ n : Nat, 1800 ≤ n → n ≤ 2000 →
      DataImporter.clean_year (.str (toString n)) = some (n : Int)) ∧
    (∀ y : Int, ¬(1800 ≤ y ∧ y ≤ 2000) → DataImporter.clean_year (.int y) = none) := by
  refine ⟨?_, ?_, ?_⟩
  · intro y h1 h2
    have hr : inYearRange y = true := by
      simp only [inYearRange, Bool.and_eq_true, decide_eq_true_eq]
      exact ⟨h1, h2⟩
    simp [DataImporter.clean_year, isna, hr]
  · have hall : ((List.range' 1800 201).all
        (fun n => DataImporter.clean_year (.str (toString n)) == some (n : Int))) = true := by
      decide
    intro n h1 h2
    have hm : n ∈ List.range' 1800 201 := List.mem_range'_1.mpr ⟨h1, by omega⟩
    exact eq_of_beq (List.all_eq_true.mp hall n hm)
  · intro y h
    have hr : inYearRange y = false := by
      simp only [inYearRange, Bool.and_eq_true, decide_eq_true_eq, Bool.and_eq_false_iff]
      by_cases h1 : 1800 ≤ y
      · exact Or.inr (by simp [decide_eq_false]; omega)
      · exact Or.inl (by simp [decide_eq_false]; omega)
    simp [DataImporter.clean_year, isna, hr]

/-- Claim C3 (witness): the theorem at 1890 (both input kinds) and at the
out-of-range 2001. -/
theorem claim_C3_witness :
    DataImporter.clean_year (.int 1890) = some 1890 ∧
    DataImporter.clean_year (.str "1890") = some 1890 ∧
    DataImporter.clean_year (.int 2001) = none := by
  refine ⟨claim_C3.1 1890 (by decide) (by decide), ?_, claim_C3.2.2 2001 (by decide)⟩
  exact claim_C3.2.1 1890 (by decide) (by decide)

/-! ### Claim C6: age-based year estimation -/

theorem age_not_sentinel {ys : String} (hage : pyIn "age" ys = true) :
    DataImporter.yearSentinel ys = false := by
  unfold DataImporter.yearSentinel
  have h1 : (ys == "") = false := by
    rcases eq_or_ne ys "" with rfl | h
    · exact absurd hage (by decide)
    · simp [h]
  have h2 : (ys == "nan") = false := by
    rcases eq_or_ne ys "nan" with rfl | h
    · exact absurd hage (by decide)
    · simp [h]
  have h3 : (ys == "inf") = false := by
    rcases eq_or_ne ys "inf" with rfl | h
    · exact absurd hage (by decide)
    · simp [h]
  have h4 : (ys == "-inf") = false := by
    rcases eq_or_ne ys "-inf" with rfl | h
    · exact absurd hage (by decide)
    · simp [h]
  have h5 : (ys == "infinity") = false := by
    rcases eq_or_ne ys "infinity" with rfl | h
    · exact absurd hage (by decide)
    · simp [h]
  have h6 : (ys == "-infinity") = false := by
    rcases eq_or_ne ys "-infinity" with rfl | h
    · exact absurd hage (by decide)
    · simp [h]
  rw [h1, h2, h3, h4, h5, h6]
  rfl

theorem cleanYearStr_age {ys : String} (hage : pyIn "age" ys = true) :
    (∀ y : Nat, findFour ys.data = some y → inYearRange (y : Int) = true →
      DataImporter.cleanYearStr ys = some (y : Int)) ∧
    (findFour ys.data = none → ∀ a : Nat, findAgeNum ys.data = some a →
      inYearRange (1900 - (a : Int)) = true →
      DataImporter.cleanYearStr ys = some (1900 - (a : Int))) := by
  have hsent := age_not_sentinel hage
  constructor
  · intro y hy hr
    simp only [DataImporter.cleanYearStr, hsent, hage, hy, hr]
    simp
  · intro hnone a ha hr
    simp only [DataImporter.cleanYearStr, hsent, hage, hnone, DataImporter.ageFallback, ha, hr]
    simp

/-- Claim C6: for text containing the substring age (which includes every
input containing the token age), the year normalizer first returns an embedded
in-range 4-digit year; failing that, an age-N pattern yields 1900 - N subject
to the range check; the per-row year processing tags any such value as
uncertain with type estimated_from_age; and Year of the literal age 10 is
1890. -/
theorem claim_C6 :
    (∀ (s : String) (y : Nat), pyIn "age" (pyLower (pyStrip s)) = true →
      findFour (pyLower (pyStrip s)).data = some y → inYearRange (y : Int) = true →
      DataImporter.clean_year (.str s) = some (y : Int)) ∧
    (∀ (s : String) (a : Nat), pyIn "age" (pyLower (pyStrip s)) = true →
      findFour (pyLower (pyStrip s)).data = none →
      findAgeNum (pyLower (pyStrip s)).data = some a →
      inYearRange (1900 - (a : Int)) = true →
      DataImporter.clean_year (.str s) = some (1900 - (a : Int))) ∧
    (∀ v : PyScalar, isna v = false → pyIn "age" (pyLower (strOfScalar v)) = true →
      (DataImporter.processYearValue v).2 = (true, some "estimated_from_age")) ∧
    DataImporter.clean_year (.str "age 10") = some 1890 := by
  refine ⟨?_, ?_, ?_, rfl⟩
  · intro s y hage hy hr
    have h := (cleanYearStr_age hage).1 y hy hr
    simpa [DataImporter.clean_year, isna] using h
  · intro s a hage hnone ha hr
    have h := (cleanYearStr_age hage).2 hnone a ha hr
    simpa [DataImporter.clean_year, isna] using h
  · intro v hna hage
    simp only [DataImporter.processYearValue, hna, hage]
    simp

/-- Claim C6 (witness): the theorem exercised at age 10 (estimation from age,
with tagging) and at age 12 b. 1888 (embedded year wins). -/
theorem claim_C6_witness :
    DataImporter.clean_year (.str "age 12 b. 1888") = some 1888 ∧
    DataImporter.clean_year (.str " AGE 10 ") = some 1890 ∧
    (DataImporter.processYearValue (.str "age 10")).2 = (true, some "estimated_from_age") := by
  refine ⟨?_, ?_, claim_C6.2.2.1 (.str "age 10") rfl (by decide)⟩
  · have h := claim_C6.1 "age 12 b. 1888" 1888 (by decide) (by decide) (by decide)
    simpa using h
  · have h := claim_C6.2.1 " AGE 10 " 10 (by decide) (by decide) (by decide) (by decide)
    simpa using h

/-! ### Claim C4: the [1800, 2000] range invariant -/

theorem ageFallback_range {ys : String} {y : Int}
    (h : DataImporter.ageFallback ys = some y) : 1800 ≤ y ∧ y ≤ 2000 := by
  unfold DataImporter.ageFallback at h
  cases ha : findAgeNum ys.data with
  | none => rw [ha] at h; exact absurd h (by simp)
  | some a =>
    rw [ha] at h
    simp only at h
    split at h
    · rename_i hr
      injection h with h
      subst h
      simpa [inYearRange, Bool.and_eq_true, decide_eq_true_eq] using hr
    · exact absurd h (by simp)

theorem cleanYearStr_range {ys : String} {y : Int}
    (h : DataImporter.cleanYearStr ys = some y) : 1800 ≤ y ∧ y ≤ 2000 := by
  unfold DataImporter.cleanYearStr at h
  simp only at h
  split at h
  · exact absurd h (by simp)
  split at h
  · split at h
    · split at h
      · rename_i hr
        injection h with h
        subst h
        simpa [inYearRange, Bool.and_eq_true, decide_eq_true_eq] using hr
      · exact ageFallback_range h
    · exact ageFallback_range h
  split at h
  · split at h
    · split at h
      · rename_i hr
        injection h with h
        subst h
        simpa [inYearRange, Bool.and_eq_true, decide_eq_true_eq] using hr
      · exact absurd h (by simp)
    · exact absurd h (by simp)
  split at h
  · split at h
    · split at h
      · rename_i hr
        injection h with h
        subst h
        simpa [inYearRange, Bool.and_eq_true, decide_eq_true_eq] using hr
      · exact absurd h (by simp)
    · exact absurd h (by simp)
  split at h
  · split at h
    · split at h
      · split at h
        · rename_i hr
          injection h with h
          subst h
          simpa [inYearRange, Bool.and_eq_true, decide_eq_true_eq] using hr
        · exact absurd h (by simp)
      · exact absurd h (by simp)
    · exact absurd h (by simp)
  split at h
  · split at h
    · rename_i hr
      injection h with h
      subst h
      simpa [inYearRange, Bool.and_eq_true, decide_eq_true_eq] using hr
    · exact absurd h (by simp)
  split at h
  · split at h
    · rename_i hr
      injection h with h
      subst h
      simpa [inYearRange, Bool.and_eq_true, decide_eq_true_eq] using hr
    · exact absurd h (by simp)
  · exact absurd h (by simp)

theorem clean_year_range {x : PyScalar} {y : Int}
    (h : DataImporter.clean_year x = some y) : 1800 ≤ y ∧ y ≤ 2000 := by
  unfold DataImporter.clean_year at h
  split at h
  · exact absurd h (by simp)
  cases x with
  | null => exact absurd h (by simp)
  | int n =>
    simp only at h
    split at h
    · rename_i hr
      injection h with h
      subst h
      simpa [inYearRange, Bool.and_eq_true, decide_eq_true_eq] using hr
    · exact absurd h (by simp)
  | float f =>
    cases f with
    | nan => exact absurd h (by simp)
    | inf => exact absurd h (by simp)
    | ninf => exact absurd h (by simp)
    | fin neg ip frac =>
      simp only at h
      split at h
      · split at h
        · rename_i hr
          injection h with h
          subst h
          simpa [inYearRange, Bool.and_eq_true, decide_eq_true_eq] using hr
        · exact absurd h (by simp)
      · exact absurd h (by simp)
  | str s => exact cleanYearStr_range h

theorem tryFormats_range {c : String} : ∀ {fs : List DFmt} {d : PyDate},
    DataImporter.tryFormats c fs = some d → 1800 ≤ d.year ∧ d.year ≤ 2000 := by
  intro fs
  induction fs with
  | nil => intro d h; exact absurd h (by simp [DataImporter.tryFormats])
  | cons f t ih =>
    intro d h
    unfold DataImporter.tryFormats at h
    cases hs : strptimeFmt f c with
    | some d0 =>
      simp only [hs] at h
      split at h
      · rename_i hr
        injection h with h
        subst h
        simpa [Bool.and_eq_true, decide_eq_true_eq] using hr
      · exact ih h
    | none =>
      simp only [hs] at h
      exact ih h

theorem pandasStage_range {p : String → PdResult} {c : String} {u : Bool} {t : Option String}
    {d : PyDate} {u2 : Bool} {t2 : Option String}
    (h : DataImporter.pandasStage p c u t = (some d, u2, t2)) :
    1800 ≤ d.year ∧ d.year ≤ 2000 := by
  unfold DataImporter.pandasStage at h
  cases hp : p c with
  | naT =>
    simp only [hp] at h
    exact absurd h (by simp)
  | err =>
    simp only [hp] at h
    exact absurd h (by simp)
  | ts d0 =>
    simp only [hp] at h
    split at h
    · rename_i hr
      have hd : d0 = d := by
        have := congrArg Prod.fst h
        simpa using this
      subst hd
      simpa [Bool.and_eq_true, decide_eq_true_eq] using hr
    · exact absurd h (by simp)

theorem parse_date_range {p : String → PdResult} {s : String} {u : Bool} {t : Option String}
    {d : PyDate} {u2 : Bool} {t2 : Option String}
    (h : DataImporter.parse_date p s u t = (some d, u2, t2)) :
    1800 ≤ d.year ∧ d.year ≤ 2000 := by
  unfold DataImporter.parse_date at h
  simp only at h
  split at h
  · rename_i d0 hf
    have hd : d0 = d := by
      have := congrArg Prod.fst h
      simpa using this
    subst hd
    exact tryFormats_range hf
  split at h
  · split at h
    · rename_i n hn hr
      have hd : (⟨n, 1, 1⟩ : PyDate) = d := by
        have := congrArg Prod.fst h
        simpa using this
      subst hd
      simpa [Bool.and_eq_true, decide_eq_true_eq] using hr
    · exact pandasStage_range h
  · exact pandasStage_range h

theorem clean_date_range {p : String → PdResult} {x : PyScalar}
    {d : PyDate} {u2 : Bool} {t2 : Option String}
    (h : DataImporter.clean_date p x = (some d, u2, t2)) :
    1800 ≤ d.year ∧ d.year ≤ 2000 := by
  unfold DataImporter.clean_date at h
  split at h
  · exact absurd h (by simp)
  simp only at h
  split at h
  · exact absurd h (by simp)
  split at h
  · exact parse_date_range h
  split at h
  · exact parse_date_range h
  split at h
  · exact parse_date_range h
  split at h
  · exact parse_date_range h
  split at h
  · exact parse_date_range h
  split at h
  · exact parse_date_range h
  · exact parse_date_range h

/-- Claim C4: every non-null year of the year normalizer and every non-null
date of the date normalizer (under any pandas oracle) has its year within
[1800, 2000]; out-of-range values give null, never a clamped value — shown for
all numeric inputs and for the bare-year strings of the boundary windows
1700-1799 and 2001-2100. -/
theorem claim_C4 :
    (∀ (x : PyScalar) (y : Int), DataImporter.clean_year x = some y →
      1800 ≤ y ∧ y ≤ 2000) ∧
    (∀ (p : String → PdResult) (x : PyScalar) (d : PyDate) (u : Bool) (t : Option String),
      DataImporter.clean_date p x = (some d, u, t) → 1800 ≤ d.year ∧ d.year ≤ 2000) ∧
    (∀ n : Nat, n ∈ List.range' 1700 100 ∨ n ∈ List.range' 2001 100 →
      DataImporter.clean_year (.str (toString n)) = none) ∧
    (∀ y : Int, ¬(1800 ≤ y ∧ y ≤ 2000) → DataImporter.clean_year (.int y) = none) := by
  refine ⟨fun x y h => clean_year_range h, fun p x d u t h => clean_date_range h, ?_, ?_⟩
  · have hlow : ((List.range' 1700 100).all
        (fun n => DataImporter.clean_year (.str (toString n)) == none)) = true := by
      decide
    have hhigh : ((List.range' 2001 100).all
        (fun n => DataImporter.clean_year (.str (toString n)) == none)) = true := by
      decide
    intro n hn
    rcases hn with hn | hn
    · exact eq_of_beq (List.all_eq_true.mp hlow n hn)
    · exact eq_of_beq (List.all_eq_true.mp hhigh n hn)
  · intro y h
    have hr : inYearRange y = false := by
      rcases Decidable.em (inYearRange y = true) with he | he
      · refine absurd ?_ h
        simpa [inYearRange, Bool.and_eq_true, decide_eq_true_eq] using he
      · simpa using he
    simp [DataImporter.clean_year, isna, hr]

/-- Claim C4 (witness): the invariant instantiated at concrete in-range
outputs and an out-of-range bare-year string. -/
theorem claim_C4_witness :
    (1800 ≤ (1890 : Int) ∧ (1890 : Int) ≤ 2000) ∧
    (1800 ≤ (1890 : Nat) ∧ (1890 : Nat) ≤ 2000) ∧
    DataImporter.clean_year (.str (toString 1750)) = none ∧
    DataImporter.clean_year (.int 1750) = none := by
  refine ⟨claim_C4.1 (.str "about 1890") 1890 (by decide), ?_, ?_, ?_⟩
  · exact claim_C4.2.1 (fun _ => PdResult.naT) (.str "1890-01-01") ⟨1890, 1, 1⟩ false none rfl
  · exact claim_C4.2.2.1 1750 (Or.inl (by decide))
  · exact claim_C4.2.2.2 1750 (by omega)

/-! ### Claim C5: fuzzy fallback and schema mismatch of the resolver -/

/-- Claim C5: when no stripped lowercased header equals any convention's
lowercased label (zero exact matches everywhere), the resolver falls back to
substring-based partial matching: if every convention also has zero partial
matches it fails with the schema-mismatch error; otherwise it returns a
convention whose own partial-match count equals the returned score, and no
convention has a larger count. -/
theorem claim_C5 (cols : List String)
    (hz : ∀ m ∈ DataImporter.mappingsList,
      DataImporter.exactCount ((cols.map pyStrip).map pyLower) m.2 = 0) :
    ((∀ m ∈ DataImporter.mappingsList,
        DataImporter.fuzzyCount ((cols.map pyStrip).map pyLower) m.2 = 0) →
      DataImporter.resolveColumnFormat false cols = Except.error DataImporter.schemaMismatchMsg) ∧
    (∀ f n, DataImporter.resolveColumnFormat false cols = Except.ok (f, n) →
      DataImporter.fuzzyCountOf f ((cols.map pyStrip).map pyLower) = n ∧
      ∀ m ∈ DataImporter.mappingsList,
        DataImporter.fuzzyCount ((cols.map pyStrip).map pyLower) m.2 ≤ n) := by
  have hconst : DataImporter.selectFormat
      (DataImporter.mappingsList.map
        (fun nm => (nm.1, DataImporter.exactCount ((cols.map pyStrip).map pyLower) nm.2)))
      (0, none) = (0, none) := by
    refine selectFormat_const ?_
    intro p hp
    simp only [DataImporter.mappingsList, List.map_cons, List.map_nil, List.mem_cons,
      List.mem_singleton] at hp
    rcases hp with rfl | rfl | rfl | rfl | rfl | hfalse
    · exact hz ("spaced", DataImporter.spacedMap) (by simp [DataImporter.mappingsList])
    · exact hz ("camel", DataImporter.camelMap) (by simp [DataImporter.mappingsList])
    · exact hz ("underscore", DataImporter.underscoreMap) (by simp [DataImporter.mappingsList])
    · exact hz ("short", DataImporter.shortMap) (by simp [DataImporter.mappingsList])
    · exact hz ("reworked", DataImporter.reworkedMap) (by simp [DataImporter.mappingsList])
    · exact absurd hfalse (by simp)
  have key : DataImporter.resolveColumnFormat false cols =
      (if (DataImporter.selectFormat
            (DataImporter.mappingsList.map
              (fun nm => (nm.1, DataImporter.fuzzyCount ((cols.map pyStrip).map pyLower) nm.2)))
            (0, none)).1 == 0 then
         Except.error DataImporter.schemaMismatchMsg
       else
         match (DataImporter.selectFormat
            (DataImporter.mappingsList.map
              (fun nm => (nm.1, DataImporter.fuzzyCount ((cols.map pyStrip).map pyLower) nm.2)))
            (0, none)).2 with
         | some f => Except.ok (f,
             (DataImporter.selectFormat
              (DataImporter.mappingsList.map
                (fun nm => (nm.1, DataImporter.fuzzyCount ((cols.map pyStrip).map pyLower) nm.2)))
              (0, none)).1)
         | none => Except.error DataImporter.schemaMismatchMsg) := by
    unfold DataImporter.resolveColumnFormat
    have hfe : (false = true) = False := by simp
    simp only [hfe, ite_false, hconst]
    rfl
  rcases selectFormat_spec
      (DataImporter.mappingsList.map
        (fun nm => (nm.1, DataImporter.fuzzyCount ((cols.map pyStrip).map pyLower) nm.2)))
      (0, none) with ⟨-, hb, hc⟩
  constructor
  · intro hallz
    have h0 : (DataImporter.selectFormat
        (DataImporter.mappingsList.map
          (fun nm => (nm.1, DataImporter.fuzzyCount ((cols.map pyStrip).map pyLower) nm.2)))
        (0, none)).1 = 0 := by
      rcases hc with hc | ⟨p, hp, hc⟩
      · rw [hc]
      · rw [hc]
        rcases List.mem_map.mp hp with ⟨m, hm, rfl⟩
        exact hallz m hm
    rw [key, if_pos (by rw [h0]; rfl)]
  · intro f n heq
    rw [key] at heq
    by_cases h0 : (DataImporter.selectFormat
        (DataImporter.mappingsList.map
          (fun nm => (nm.1, DataImporter.fuzzyCount ((cols.map pyStrip).map pyLower) nm.2)))
        (0, none)).1 = 0
    · rw [if_pos (by rw [h0]; rfl)] at heq
      exact absurd heq (by simp)
    · rw [if_neg (by simp only [beq_iff_eq]; exact h0)] at heq
      rcases hc with hc | ⟨p, hp, hc⟩
      · exact absurd (congrArg Prod.fst hc) h0
      · rw [hc] at heq h0 hb
        simp only at heq h0 hb
        rcases List.mem_map.mp hp with ⟨m, hm, rfl⟩
        simp only at heq h0 hb
        have hfn : m.1 = f ∧ DataImporter.fuzzyCount ((cols.map pyStrip).map pyLower) m.2 = n := by
          simp only [Except.ok.injEq, Prod.mk.injEq] at heq
          exact ⟨heq.1, heq.2⟩
        refine ⟨?_, ?_⟩
        · rw [← hfn.1, ← hfn.2]
          simp only [DataImporter.mappingsList, List.mem_cons, List.mem_singleton] at hm
          rcases hm with rfl | rfl | rfl | rfl | rfl | hfalse
          · simp [DataImporter.fuzzyCountOf, DataImporter.mappingsList]
          · simp [DataImporter.fuzzyCountOf, DataImporter.mappingsList]
          · simp [DataImporter.fuzzyCountOf, DataImporter.mappingsList]
          · simp [DataImporter.fuzzyCountOf, DataImporter.mappingsList]
          · simp [DataImporter.fuzzyCountOf, DataImporter.mappingsList]
          · exact absurd hfalse (by simp)
        · intro m2 hm2
          rw [← hfn.2]
          exact hb (m2.1, DataImporter.fuzzyCount ((cols.map pyStrip).map pyLower) m2.2)
            (List.mem_map_of_mem _ hm2)

/-- Claim C5 (witness): a header that matches no label exactly but is a
superstring of the spaced label family name (and of the short label family):
the resolver picks the spaced convention with one partial match, the maximum. -/
theorem claim_C5_witness :
    DataImporter.resolveColumnFormat false ["Family Name Xtra"] = Except.ok ("spaced", 1) ∧
    DataImporter.fuzzyCountOf "spaced" ((["Family Name Xtra"].map pyStrip).map pyLower) = 1 ∧
    ∀ m ∈ DataImporter.mappingsList,
      DataImporter.fuzzyCount ((["Family Name Xtra"].map pyStrip).map pyLower) m.2 ≤ 1 := by
  have h := (claim_C5 ["Family Name Xtra"] (by decide)).2 "spaced" 1 rfl
  exact ⟨rfl, h.1, h.2⟩
